import Mathlib

/-!
A shallow embedding of the pretty-printing header `include/prettyprint.h`:
the compile-time type classifier (`stringifier_tag`), the trait predicates
it consults, and the per-category renderers (`stringifier_select`
specializations), together with theorems settling the specification's
claims about them.

Output streams are modelled as a string accumulator plus an ambient
format-flag field; a stream insertion appends text and leaves the flags
alone unless it is an explicit manipulator (none of the embedded renderers
use one).  Machine character sequences are modelled as Lean strings; for
`char*` and `char[N]` values the modelled string is the character content
up to (excluding) the first NUL, which is exactly what `operator<<` on a
`const char*` writes.
-/

namespace PrettyPrint

/-- Model of `std::ostream`: accumulated character content plus the ambient
format state.  The single `boolalpha` field stands for the stream's
persistent format flags (the only flag any of the embedded renderers could
plausibly touch). -/
structure OStream where
  content : String
  boolalpha : Bool
deriving Repr, DecidableEq

/-- `s << t` for a character sequence `t`: append, flags untouched. -/
def writeStr (os : OStream) (t : String) : OStream :=
  { os with content := os.content ++ t }

/-- `s << c` for a single character `c`: append that one character. -/
def writeChar (os : OStream) (c : Char) : OStream :=
  writeStr os (String.singleton c)

/-- `s << n` for an integer under the stream's default (decimal) base. -/
def writeInt (os : OStream) (n : Int) : OStream :=
  writeStr os (toString n)

/-- The compile-time facts the header's SFINAE detectors and standard
type traits report about a C++ type; one field per primitive trait the
classifier consults.  `has_begin`/`has_end` are the `SFINAE_DETECT(begin, ...)`
and `SFINAE_DETECT(end, ...)` probes; `has_call_operator` is
`SFINAE_DETECT(call_operator, &T::operator())`; `has_operator_output` is
`SFINAE_DETECT(operator_output, std::cout << std::declval<T>())`;
`has_bool_conversion` is `SFINAE_DETECT(bool_conversion, bool_conversion_test(std::declval<T>()))`;
the rest are `std::is_function`, `std::is_bind_expression`,
`detail::is_std_function`, `detail::is_pair`, `detail::is_tuple`,
`std::is_enum`, `std::is_union`, `std::is_class`, `std::is_null_pointer`. -/
structure TypeDesc where
  has_begin : Bool
  has_end : Bool
  has_call_operator : Bool
  is_std_function : Bool
  is_function : Bool
  is_bind_expression : Bool
  has_operator_output : Bool
  has_bool_conversion : Bool
  is_pair : Bool
  is_tuple : Bool
  is_enum : Bool
  is_union : Bool
  is_class : Bool
  is_null_pointer : Bool
deriving Repr, DecidableEq

/-- `detail::is_iterable`: has both `begin()` and `end()`. -/
def is_iterable (T : TypeDesc) : Bool :=
  T.has_begin && T.has_end

/-- `detail::is_callable`: call operator, or `std::function`, or a function
type, or a bind expression. -/
def is_callable (T : TypeDesc) : Bool :=
  T.has_call_operator || T.is_std_function || T.is_function || T.is_bind_expression

/-- `detail::is_outputtable`: `operator<<` applies, the type is not a
function type, and it is not both invokable (call operator) and implicitly
convertible to `bool`. -/
def is_outputtable (T : TypeDesc) : Bool :=
  T.has_operator_output && !T.is_function &&
    !(T.has_call_operator && T.has_bool_conversion)

/-- `detail::is_unprintable`: union, class, or `nullptr_t`. -/
def is_unprintable (T : TypeDesc) : Bool :=
  T.is_union || T.is_class || T.is_null_pointer

/-- The category tag types the dispatcher can select; `voidTag` is the
`void` fall-through of the `stringifier_tag` conditional chain, handled by
the unspecialized (placeholder-printing) `stringifier_select`. -/
inductive Tag where
  | is_outputtable_tag
  | is_callable_tag
  | is_iterable_tag
  | is_pair_tag
  | is_tuple_tag
  | is_enum_tag
  | is_unprintable_tag
  | voidTag
deriving Repr, DecidableEq

/-- `stringifier_tag<T>`: the nested `std::conditional_t` chain choosing
the way to treat a type, in preference order. -/
def stringifier_tag (T : TypeDesc) : Tag :=
  if is_outputtable T then Tag.is_outputtable_tag
  else if is_callable T then Tag.is_callable_tag
  else if is_iterable T then Tag.is_iterable_tag
  else if T.is_pair then Tag.is_pair_tag
  else if T.is_tuple then Tag.is_tuple_tag
  else if T.is_enum then Tag.is_enum_tag
  else if is_unprintable T then Tag.is_unprintable_tag
  else Tag.voidTag

/-- The set of `detail::callable_type<T>()` overloads whose `enable_if`
condition holds, in declaration order.  Each overload is guarded by,
respectively: `is_std_function<T>`, `std::is_function<T>`,
`std::is_bind_expression<T>`, and `!is_std_function<T> && has_call_operator<T>`. -/
def callable_type_candidates (T : TypeDesc) : List String :=
  (if T.is_std_function then ["(std::function)"] else []) ++
  (if T.is_function then ["(function)"] else []) ++
  (if T.is_bind_expression then ["(bind expression)"] else []) ++
  (if !T.is_std_function && T.has_call_operator then ["(function object)"] else [])

/-- `detail::callable_type<T>()`: defined exactly when overload resolution
finds a unique enabled candidate; `none` models a compile error (no viable
or ambiguous overload). -/
def callable_type (T : TypeDesc) : Option String :=
  match callable_type_candidates T with
  | [s] => some s
  | _ => none

/-- `stringifier_select<T, is_callable_tag>::output`:
`s << "<callable " << callable_type<T>() << '>'`. -/
def output_callable (T : TypeDesc) (os : OStream) : Option OStream :=
  (callable_type T).map (fun t => writeChar (writeStr (writeStr os "<callable ") t) '>')

/-- The unspecialized `stringifier_select<T, TAG>::output`: `s << "<unknown>"`. -/
def output_unknown (os : OStream) : OStream :=
  writeStr os "<unknown>"

/-- `stringifier_select<T, is_outputtable_tag>::output` at `T = char`:
`s << m_t` writes the one character natively, verbatim. -/
def output_outputtable_char (c : Char) (os : OStream) : OStream :=
  writeChar os c

/-- `stringifier_select<T, is_outputtable_tag>::output` at an integral `T`
(also the promoted value of an unscoped enum): `s << m_t` in the stream's
default decimal base. -/
def output_outputtable_int (n : Int) (os : OStream) : OStream :=
  writeInt os n

/-- `stringifier_select<std::basic_string<C,T,A>, is_outputtable_tag>::output`:
`s << C('"') << m_t << C('"')`; `str` is the string's full character
content (a `basic_string` insertion writes all `size()` characters). -/
def output_string (str : String) (os : OStream) : OStream :=
  writeChar (writeStr (writeChar os '"') str) '"'

/-- `stringifier_select<char*, is_outputtable_tag>::output` (also reached
by the `char* const`, `const char*`, `const char* const` specializations,
which derive from it): `s << '"' << m_t << '"'`; `str` is the pointee's
character content up to the first NUL. -/
def output_char_ptr (str : String) (os : OStream) : OStream :=
  writeChar (writeStr (writeChar os '"') str) '"'

/-- `stringifier_select<char[N], is_outputtable_tag>::output` (also reached
by the `const char[N]` specialization, which derives from it): the array
decays to `const char*`, so `s << '"' << m_t << '"'` writes the content up
to the first NUL between quotes. -/
def output_char_array (str : String) (os : OStream) : OStream :=
  writeChar (writeStr (writeChar os '"') str) '"'

/-- `stringifier_select<bool, is_outputtable_tag>::output`:
`s << (m_t ? "true" : "false")` -- a plain character-sequence write, no
manipulator. -/
def output_bool (b : Bool) (os : OStream) : OStream :=
  writeStr os (if b then "true" else "false")

/-- The result of `static_cast<std::underlying_type_t<T>>(m_t)`, keeping
the distinction the subsequent stream insertion is overloaded on: a
character underlying type (`char`, `signed char`, `unsigned char`), whose
insertion writes the glyph with that code, versus any other integral
underlying type, whose insertion writes the number in the stream's
default decimal base. -/
inductive Underlying where
  | charU (c : Char)
  | intU (n : Int)
deriving Repr, DecidableEq

/-- `stringifier_select<T, is_enum_tag>` carries the enum value; in the
model: the enumerator's symbolic name and the value cast to the enum's
underlying type. -/
structure EnumValue where
  name : String
  underlying : Underlying
deriving Repr, DecidableEq

/-- `stringifier_select<T, is_enum_tag>::output`:
`s << static_cast<std::underlying_type_t<T>>(m_t)` -- the insertion
overload is selected by the underlying type: the character types write
the glyph, every other integral type writes the number in decimal. -/
def output_enum (e : EnumValue) (os : OStream) : OStream :=
  match e.underlying with
  | Underlying.charU c => writeChar os c
  | Underlying.intU n => writeInt os n

/-- Modelled from the spec: the unknown-bounds-array renderer.  The
repository's test program (`src/test/main.cpp`, the zero-extent array
tests) exercises a `stringifier_select` specialization for arrays of
unknown bound that the header version under `src/include` does not
contain; per the spec it writes the fixed diagnostic placeholder
`<array (unknown bounds)>` and never dereferences or iterates the array
(the renderer does not look at the array value at all). -/
def output_array_unknown_bounds (os : OStream) : OStream :=
  writeStr os "<array (unknown bounds)>"

/-- `std::for_each(first, last, f)` as used by `detail::output_iterable`:
starting from iterator position `first`, while the position differs from
`last`, write the separator and the rendered element, then advance.
Dereferencing is only defined at positions below the container's length;
an out-of-range dereference (which C++ leaves undefined) is `none`. -/
def for_each_out (render : α → String) (sep : String) (xs : List α)
    (first last : Nat) (os : OStream) : Option OStream :=
  if first = last then some os
  else if h : first < xs.length then
    for_each_out render sep xs (first + 1) last
      (writeStr (writeStr os sep) (render (xs.get ⟨first, h⟩)))
  else none
  termination_by xs.length - first
  decreasing_by simp_wf; omega

/-- `detail::output_iterable`: write the opener; let `b = begin`,
`e = end`; if `b != e` write the first element; then
`std::for_each(++b, e, ...)` writes separator-plus-element for the rest;
finally write the closer.  Note the increment and the `for_each` call
happen even when the container is empty, handing `for_each` the inverted
range `[1, 0)`. -/
def output_iterable (opener closer sep : String) (render : α → String)
    (xs : List α) (os : OStream) : Option OStream :=
  let os1 := writeStr os opener
  let os2 := match xs with
    | x :: _ => writeStr os1 (render x)
    | [] => os1
  (for_each_out render sep xs 1 xs.length os2).map (fun o => writeStr o closer)

/-- `iterable_opener<T>::operator()` default: `"{"`. -/
def iterable_opener_default : String := "\x7b"

/-- `iterable_closer<T>::operator()` default: `"}"`. -/
def iterable_closer_default : String := "\x7d"

/-- `iterable_separator<T>::operator()` default: `","`. -/
def iterable_separator_default : String := ","

/-- The `for_each_in_tuple` traversal specialized to the tuple renderer's
lambda: for each element, in declaration order with its index, write `','`
when the index is positive, then the element's rendered text.  The tuple's
elements are modelled by their already-rendered texts. -/
def output_tuple_go : List String → Nat → OStream → OStream
  | [], _, os => os
  | e :: rest, i, os =>
      output_tuple_go rest (i + 1) (writeStr (if i > 0 then writeStr os "," else os) e)

/-- `stringifier_select<T, is_tuple_tag>::output`: `s << '('`, the
`for_each_in_tuple` traversal, `s << ')'`. -/
def output_tuple (elems : List String) (os : OStream) : OStream :=
  writeChar (output_tuple_go elems 0 (writeChar os '(')) ')'

/-- Stated from the claim's words, for comparison with the renderers: the
elements joined by the separator (empty join for no elements, no leading
or trailing separator). -/
def specJoin (sep : String) : List String → String
  | [] => ""
  | [e] => e
  | e :: rest => e ++ sep ++ specJoin sep rest

/-- Proof-side helper: the elements each preceded by the separator,
concatenated -- the text `for_each_in_tuple`'s lambda produces once the
index is past zero. -/
def leadJoin (sep : String) : List String → String
  | [] => ""
  | e :: rest => sep ++ e ++ leadJoin sep rest

/-- Descriptor of a non-capturing lambda's closure type: has `operator()`,
implicitly converts to a function pointer and hence to `bool`, which also
makes `std::cout << v` compile; not a function type, `std::function`, or
bind expression. -/
def lambdaDesc : TypeDesc :=
  { has_begin := false, has_end := false, has_call_operator := true,
    is_std_function := false, is_function := false, is_bind_expression := false,
    has_operator_output := true, has_bool_conversion := true,
    is_pair := false, is_tuple := false, is_enum := false,
    is_union := false, is_class := true, is_null_pointer := false }

/-- Descriptor of a container class type that also has a user-supplied
`operator<<`: `begin()`/`end()` present and native output present. -/
def printableContainerDesc : TypeDesc :=
  { has_begin := true, has_end := true, has_call_operator := false,
    is_std_function := false, is_function := false, is_bind_expression := false,
    has_operator_output := true, has_bool_conversion := false,
    is_pair := false, is_tuple := false, is_enum := false,
    is_union := false, is_class := true, is_null_pointer := false }

/-- Descriptor of a raw function type such as `void()`: `std::is_function`
holds; a function lvalue decays to a pointer and so converts to `bool`,
making `std::cout << v` compile; no members, so no `operator()` probe
succeeds. -/
def funcDesc : TypeDesc :=
  { has_begin := false, has_end := false, has_call_operator := false,
    is_std_function := false, is_function := true, is_bind_expression := false,
    has_operator_output := true, has_bool_conversion := true,
    is_pair := false, is_tuple := false, is_enum := false,
    is_union := false, is_class := false, is_null_pointer := false }

/-- Descriptor of a function pointer type such as `void(*)()`:
`std::is_function` is false (it is a pointer, not a function type); a
pointer type has no members, so the `&T::operator()` probe fails; it
converts implicitly to `bool`, so `std::cout << v` compiles. -/
def funcPtrDesc : TypeDesc :=
  { has_begin := false, has_end := false, has_call_operator := false,
    is_std_function := false, is_function := false, is_bind_expression := false,
    has_operator_output := true, has_bool_conversion := true,
    is_pair := false, is_tuple := false, is_enum := false,
    is_union := false, is_class := false, is_null_pointer := false }

/-- Descriptor of `char`: natively outputtable, implicitly convertible to
`bool` (integral conversion), but with no call operator, so the
callable-and-bool-convertible exclusion does not apply. -/
def charDesc : TypeDesc :=
  { has_begin := false, has_end := false, has_call_operator := false,
    is_std_function := false, is_function := false, is_bind_expression := false,
    has_operator_output := true, has_bool_conversion := true,
    is_pair := false, is_tuple := false, is_enum := false,
    is_union := false, is_class := false, is_null_pointer := false }

/-! ## Helper lemmas -/

theorem writeStr_writeStr (os : OStream) (a b : String) :
    writeStr (writeStr os a) b = writeStr os (a ++ b) := by
  simp [writeStr, String.append_assoc]

theorem writeStr_empty (os : OStream) : writeStr os "" = os := by
  simp [writeStr, String.append_empty]

theorem singleton_open_paren : String.singleton (Char.ofNat 40) = "(" := rfl

theorem singleton_close_paren : String.singleton (Char.ofNat 41) = ")" := rfl

theorem output_tuple_go_shift (elems : List String) :
    ∀ (i : Nat) (os : OStream), 0 < i →
      output_tuple_go elems i os = writeStr os (leadJoin "," elems) := by
  induction elems with
  | nil => intro i os _; simp [output_tuple_go, leadJoin, writeStr_empty]
  | cons e rest ih =>
      intro i os hi
      have : output_tuple_go (e :: rest) i os
          = output_tuple_go rest (i + 1) (writeStr (writeStr os ",") e) := by
        simp [output_tuple_go, hi]
      rw [this, ih (i + 1) _ (Nat.succ_pos i), writeStr_writeStr, writeStr_writeStr,
        leadJoin, String.append_assoc]

theorem specJoin_cons (sep : String) :
    ∀ (e : String) (rest : List String),
      specJoin sep (e :: rest) = e ++ leadJoin sep rest := by
  intro e rest
  induction rest generalizing e with
  | nil => simp [specJoin, leadJoin, String.append_empty]
  | cons f rs ih => simp [specJoin, leadJoin, ih, String.append_assoc]

/-! ## The claims -/

/-- Claim C1: the classifier's two tie-breaks.  (a) Every type that is
invokable (in the classifier's sense) and implicitly bool-convertible is
tagged Callable, never Outputtable; the hypotheses record that in C++ a
`std::function` and a bind expression always expose `operator()`.  (b)
Every type that is both iterable (begin/end) and outputtable is tagged
Outputtable: native output wins over generic iteration. -/
theorem c1_classifier_tiebreaks (T : TypeDesc)
    (hstd : T.is_std_function = true → T.has_call_operator = true)
    (hbind : T.is_bind_expression = true → T.has_call_operator = true) :
    (is_callable T = true → T.has_bool_conversion = true →
      stringifier_tag T = Tag.is_callable_tag) ∧
    (is_iterable T = true → is_outputtable T = true →
      stringifier_tag T = Tag.is_outputtable_tag) := by
  constructor
  · intro hc hb
    have hout : is_outputtable T = false := by
      cases hco : T.has_call_operator with
      | true => simp [is_outputtable, hco, hb]
      | false =>
        have h1 : T.is_std_function = false := by
          cases h : T.is_std_function with
          | false => rfl
          | true => exact absurd (hstd h) (by simp [hco])
        have h2 : T.is_bind_expression = false := by
          cases h : T.is_bind_expression with
          | false => rfl
          | true => exact absurd (hbind h) (by simp [hco])
        have h3 : T.is_function = true := by
          simpa [is_callable, hco, h1, h2] using hc
        simp [is_outputtable, h3]
    simp [stringifier_tag, hout, hc]
  · intro _ ho
    simp [stringifier_tag, ho]

/-- Witness for C1: a non-capturing lambda's closure type is tagged
Callable, and a container type carrying a custom `operator<<` is tagged
Outputtable. -/
theorem c1_classifier_tiebreaks_witness :
    stringifier_tag lambdaDesc = Tag.is_callable_tag ∧
    stringifier_tag printableContainerDesc = Tag.is_outputtable_tag :=
  ⟨(c1_classifier_tiebreaks lambdaDesc (by decide) (by decide)).1 (by decide) (by decide),
   (c1_classifier_tiebreaks printableContainerDesc (by decide) (by decide)).2
     (by decide) (by decide)⟩

/-- Claim C2 (divergence): on an empty container `detail::output_iterable`
does not write opener-then-closer; it increments the begin iterator of an
empty range and hands `std::for_each` the inverted range `[1, 0)`, whose
traversal dereferences out of bounds (undefined behavior, `none` in the
model).  On a non-empty container the opener/join/closer shape the claim
states does hold, as the second conjunct shows on `[1, 2, 3]`. -/
theorem c2_output_iterable_empty_divergence :
    output_iterable iterable_opener_default iterable_closer_default
      iterable_separator_default (fun s : String => s) ([] : List String)
      ⟨"", false⟩ = none ∧
    output_iterable iterable_opener_default iterable_closer_default
      iterable_separator_default (fun s : String => s) ["1", "2", "3"]
      ⟨"", false⟩ = some ⟨"\x7b1,2,3\x7d", false⟩ := by
  constructor
  · simp [output_iterable, for_each_out, iterable_opener_default,
      iterable_closer_default, iterable_separator_default]
  · simp [output_iterable, for_each_out, iterable_opener_default,
      iterable_closer_default, iterable_separator_default, writeStr]

/-- Claim C3: every string-like renderer writes one leading double quote,
the raw character content verbatim (no escaping, whatever characters
`str` holds), and one trailing double quote. -/
theorem c3_stringlike_quoted_verbatim (str : String) (os : OStream) :
    (output_string str os).content = os.content ++ "\"" ++ str ++ "\"" ∧
    (output_char_ptr str os).content = os.content ++ "\"" ++ str ++ "\"" ∧
    (output_char_array str os).content = os.content ++ "\"" ++ str ++ "\"" :=
  ⟨rfl, rfl, rfl⟩

/-- Counterexample to claim C4 as stated: the descriptor of a function
pointer type such as `void(*)()` (no members, hence no `operator()` probe;
not a function type; implicitly bool-convertible, hence outputtable) is
classified Outputtable, not Callable. -/
theorem c4_function_pointer_outputtable :
    stringifier_tag funcPtrDesc = Tag.is_outputtable_tag ∧
    stringifier_tag funcPtrDesc ≠ Tag.is_callable_tag := by decide

/-- Claim C4 as amended: every value of raw function type is classified
Callable -- never Outputtable, despite its bool-convertibility making a
native output operation succeed -- and renders the `(function)` tag,
distinct from the tags for a type-erased wrapper, a bind expression, and
a generic function object; a function-pointer-typed value, by contrast,
falls to the Outputtable category.  The hypotheses record that a C++
function type is not `std::function`, is not a bind expression, and has
no members. -/
theorem c4_raw_function_callable (T : TypeDesc) (os : OStream)
    (hfn : T.is_function = true) (hstd : T.is_std_function = false)
    (hbind : T.is_bind_expression = false) (hco : T.has_call_operator = false) :
    stringifier_tag T = Tag.is_callable_tag ∧
    callable_type T = some "(function)" ∧
    output_callable T os = some (writeStr os "<callable (function)>") ∧
    ("(function)" ≠ "(std::function)" ∧ "(function)" ≠ "(bind expression)" ∧
      "(function)" ≠ "(function object)") := by
  have hct : callable_type T = some "(function)" := by
    simp [callable_type, callable_type_candidates, hfn, hstd, hbind, hco]
  refine ⟨?_, hct, ?_, by decide, by decide, by decide⟩
  · have hout : is_outputtable T = false := by simp [is_outputtable, hfn]
    have hc : is_callable T = true := by simp [is_callable, hfn]
    simp [stringifier_tag, hout, hc]
  · simp only [output_callable, hct, Option.map_some', writeChar, writeStr_writeStr]
    rfl

/-- Witness for C4 (amended): the descriptor of the raw function type
`void()`. -/
theorem c4_raw_function_callable_witness :
    stringifier_tag funcDesc = Tag.is_callable_tag ∧
    callable_type funcDesc = some "(function)" ∧
    output_callable funcDesc ⟨"", false⟩ = some (writeStr ⟨"", false⟩ "<callable (function)>") ∧
    ("(function)" ≠ "(std::function)" ∧ "(function)" ≠ "(bind expression)" ∧
      "(function)" ≠ "(function object)") :=
  c4_raw_function_callable funcDesc ⟨"", false⟩ rfl rfl rfl rfl

/-- Claim C5: the unknown-bounds-array renderer writes exactly the
diagnostic placeholder and touches nothing else -- it never receives,
dereferences or iterates the array value, and leaves the stream's format
state alone. -/
theorem c5_array_unknown_bounds_placeholder (os : OStream) :
    (output_array_unknown_bounds os).content = os.content ++ "<array (unknown bounds)>" ∧
    (output_array_unknown_bounds os).boolalpha = os.boolalpha :=
  ⟨rfl, rfl⟩

/-- Counterexample to claim C6 as stated: for a scoped enum with a
character underlying type -- `enum class E : char { A = 65 }` -- the
renderer's insertion `s << static_cast<char>(m_t)` selects the `char`
overload and writes the glyph `A`, not the decimal numeral `65`. -/
theorem c6_char_underlying_counterexample :
    output_enum ⟨"A", Underlying.charU (Char.ofNat 65)⟩ ⟨"", false⟩ = ⟨"A", false⟩ ∧
    (output_enum ⟨"A", Underlying.charU (Char.ofNat 65)⟩ ⟨"", false⟩).content ≠ "65" := by
  decide

/-- Claim C6 as amended: the enum renderer writes the value cast to the
enum's underlying type through the native stream insertion, independent
of the enumerator's symbolic name and with no name lookup: decimal for
every non-character integral underlying type, but the single character
glyph with that code (not its decimal numeral) when a scoped enum's
underlying type is a character type; a plain (unscoped) enum reaching
the generic outputtable path through integral promotion likewise writes
the promoted value in decimal. -/
theorem c6_enum_underlying_insertion (name n2 : String) (u : Underlying) (os : OStream) :
    output_enum ⟨name, u⟩ os = output_enum ⟨n2, u⟩ os ∧
    (∀ n : Int, (output_enum ⟨name, Underlying.intU n⟩ os).content = os.content ++ toString n) ∧
    (∀ c : Char, output_enum ⟨name, Underlying.charU c⟩ os = writeChar os c) ∧
    (∀ n : Int, (output_outputtable_int n os).content = os.content ++ toString n) := by
  refine ⟨?_, fun n => rfl, fun c => rfl, fun n => rfl⟩
  cases u <;> rfl

/-- Claim C7: the tuple renderer writes `(`, the recursively rendered
elements in declaration order joined by `,`, then `)`; the 0-element
tuple renders exactly `()`. -/
theorem c7_tuple_parenthesized_join (elems : List String) (os : OStream) :
    output_tuple elems os = writeStr os ("(" ++ specJoin "," elems ++ ")") ∧
    output_tuple [] os = writeStr os "()" := by
  have main : ∀ es : List String,
      output_tuple es os = writeStr os ("(" ++ specJoin "," es ++ ")") := by
    intro es
    cases es with
    | nil =>
        simp [output_tuple, output_tuple_go, specJoin, writeChar,
          writeStr_writeStr, String.append_empty, singleton_open_paren,
          singleton_close_paren]
    | cons e rest =>
        have h1 : output_tuple (e :: rest) os
            = writeChar (output_tuple_go rest 1 (writeStr (writeChar os '(') e)) ')' := by
          simp [output_tuple, output_tuple_go]
        rw [h1, output_tuple_go_shift rest 1 _ Nat.one_pos]
        simp [writeChar, writeStr_writeStr, specJoin_cons, String.append_assoc,
          singleton_open_paren, singleton_close_paren]
  exact ⟨main elems, main []⟩

/-- Claim C8: the bool renderer writes exactly the word `true` or `false`
(never `1` or `0`) and leaves the stream's ambient format state exactly as
it found it. -/
theorem c8_bool_words_preserve_state (b : Bool) (os : OStream) :
    (output_bool b os).content = os.content ++ (if b then "true" else "false") ∧
    (output_bool b os).boolalpha = os.boolalpha ∧
    (if b then "true" else "false") ≠ "1" ∧
    (if b then "true" else "false") ≠ "0" := by
  refine ⟨rfl, rfl, ?_, ?_⟩ <;> cases b <;> decide

/-- Claim C9: classification is total -- `stringifier_tag` is a function,
so every type descriptor receives exactly one tag; the fall-through tag
`voidTag` is selected precisely when no predicate of the chain matches,
and its renderer writes the fixed placeholder `<unknown>` rather than
failing. -/
theorem c9_classification_total (T : TypeDesc) (os : OStream) :
    (stringifier_tag T = Tag.voidTag ↔
      (is_outputtable T = false ∧ is_callable T = false ∧ is_iterable T = false ∧
       T.is_pair = false ∧ T.is_tuple = false ∧ T.is_enum = false ∧
       is_unprintable T = false)) ∧
    (output_unknown os).content = os.content ++ "<unknown>" := by
  refine ⟨?_, rfl⟩
  unfold stringifier_tag
  split_ifs with h1 h2 h3 h4 h5 h6 h7 <;> simp_all

/-- Claim C10: `char` is classified by the generic natively-outputtable
path (its bool-convertibility alone, without a call operator, does not
disqualify it), and that path writes the single character verbatim with
no surrounding quote delimiters. -/
theorem c10_char_unquoted_verbatim (c : Char) (os : OStream) :
    stringifier_tag charDesc = Tag.is_outputtable_tag ∧
    (output_outputtable_char c os).content = os.content ++ String.singleton c :=
  ⟨by decide, rfl⟩

end PrettyPrint
